import Mathlib

/-!
Verification of the Productivity-Agent core pipeline: priority scoring
(src/agents/priority_agent.py, src/utils/helpers.py), time-block scheduling
(src/agents/planner_agent.py), plan evaluation (src/evaluation/plan_evaluator.py),
the reflection loop (src/agents/reflection_agent.py) and the memory bank
(src/memory/memory_bank.py).

Modelling conventions:
- Python dict lookups `d.get(k, default)` on optional keys become `Option` fields
  read with `getD`; keys accessed as `d[k]` (which would raise `KeyError` when
  absent) become required fields.
- Python floats are modelled as exact rationals (`ℚ`).  Every numeric value the
  scorers produce is a small multiple of 1/10 or 1/100, and for such values the
  float computations in the source are exact, so the rational model agrees with
  the runtime values.  `round(x, n)` is modelled by `round2`/`round1` below,
  which round halves away from zero, whereas CPython rounds representable
  halves to even; the proved statements therefore use these functions only at
  values where no halfway case arises (`round2` is only ever applied to
  multiples of 1/100, and `round1` appears in proved statements only at rate
  0, where the two conventions agree).
- Times are minutes since local midnight of the (fixed) planning day (`ℕ`);
  `datetime + timedelta(minutes=m)` is addition of minutes, and the ISO strings
  stored in schedule blocks are in bijection with these minute offsets.
- Python's `sorted`, a stable sort, is modelled by `List.insertionSort r` where
  `r a b` holds iff the key of `a` is at most the key of `b` (descending keys
  use the flipped comparison): `orderedInsert` places each element before the
  first already-placed element with an equal-or-worse key, and earlier input
  elements are inserted later, which reproduces exactly the stable order.
-/

namespace Productivity

/-- Model of Python `round(x, 2)`.  Rounds halves away from zero; every value
this development actually rounds with it is an exact multiple of 1/100, so no
halfway case arises and it agrees with CPython there. -/
def round2 (q : ℚ) : ℚ := (round (100 * q) : ℤ) / 100

/-- Model of Python `round(x, 1)`.  Rounds halves away from zero, while
CPython rounds representable halves to even (e.g. `round(106.25, 1)` is
`106.2` in CPython but `round1` gives `106.3`); proved statements therefore
only evaluate the one-decimal reported rate at values with no halfway case. -/
def round1 (q : ℚ) : ℚ := (round (10 * q) : ℤ) / 10

/-! ## src/utils/helpers.py -/

/-- Embedding of `helpers.calculate_priority_score`: weighted sum of urgency,
importance, inverted effort and a deadline step bonus, rounded to 2 decimals.
`deadline_days = None` contributes a factor of 0. -/
def calculate_priority_score (urgency importance effort : ℚ)
    (deadline_days : Option ℤ) : ℚ :=
  let base_score := urgency * (2/5) + importance * (2/5)
  let effort_factor := (6 - effort) * (1/10)
  let deadline_factor : ℚ :=
    match deadline_days with
    | none => 0
    | some d => if d ≤ 1 then 1/2 else if d ≤ 3 then 3/10 else if d ≤ 7 then 1/10 else 0
  round2 (base_score + effort_factor + deadline_factor)

/-! ## Task data model (§3 of the spec; dict keys the agents read via `.get`) -/

/-- Embedding of a task dict as consumed by the priority and reflection agents;
every field those agents read with `task.get(...)` is optional. -/
structure Task where
  id : Option String := none
  name : Option String := none
  category : Option String := none
  priority : Option String := none
  estimated_duration : Option ℕ := none
  deadline : Option String := none
deriving DecidableEq, Repr

/-- Embedding of the `scoring_details` dict written by `PriorityAgent._score_task`. -/
structure ScoringDetails where
  urgency : ℕ
  importance : ℕ
  effort : ℕ
  deadline_days : Option ℤ
deriving DecidableEq, Repr

/-- A task dict after `PriorityAgent._score_task` added its scoring keys. -/
structure ScoredTask extends Task where
  priority_score : ℚ
  scoring_details : ScoringDetails
  rank : Option ℕ := none
  adjusted_for_preferences : Bool := false
deriving DecidableEq, Repr

/-! ## src/agents/priority_agent.py -/

/-- Urgency lookup in `_score_task`: `{"high":5,"medium":3,"low":1}.get(task.get("priority","medium"), 3)`. -/
def urgencyOf (p : Option String) : ℕ :=
  match p.getD "medium" with
  | "high" => 5
  | "medium" => 3
  | "low" => 1
  | _ => 3

/-- Importance lookup in `_score_task`: category map with default 2
(`importance_map.get(task.get("category","general"), 2)`). -/
def importanceOf (c : Option String) : ℕ :=
  match c.getD "general" with
  | "meeting" => 4
  | "coding" => 3
  | "review" => 3
  | "planning" => 3
  | "learning" => 2
  | "email" => 2
  | "general" => 2
  | _ => 2

/-- Effort buckets in `_score_task` over `task.get("estimated_duration", 60)`. -/
def effortOf (d : Option ℕ) : ℕ :=
  let duration := d.getD 60
  if duration ≤ 30 then 1
  else if duration ≤ 60 then 2
  else if duration ≤ 120 then 3
  else if duration ≤ 180 then 4
  else 5

/-- Deadline-days computation in `_score_task`.  `daysUntil` models the
environment (`datetime.fromisoformat` composed with subtraction of
`datetime.now()`, `none` for a parse failure); the code truncates negative
day counts to 0 and treats an empty/absent deadline string as no deadline
(`if task.get("deadline"):` is false for `""`). -/
def deadlineDaysOf (daysUntil : String → Option ℤ) (deadline : Option String) : Option ℤ :=
  match deadline with
  | none => none
  | some s => if s = "" then none else (daysUntil s).map (fun d => max d 0)

/-- Embedding of `PriorityAgent._score_task`: derives the four factors and
attaches `priority_score` and `scoring_details` to the task. -/
def scoreTask (daysUntil : String → Option ℤ) (t : Task) : ScoredTask :=
  let urgency := urgencyOf t.priority
  let importance := importanceOf t.category
  let effort := effortOf t.estimated_duration
  let deadline_days := deadlineDaysOf daysUntil t.deadline
  { t with
    priority_score := calculate_priority_score urgency importance effort deadline_days
    scoring_details :=
      { urgency := urgency, importance := importance, effort := effort,
        deadline_days := deadline_days } }

/-- Descending-score comparison used by both `sorted(..., key=lambda x:
x["priority_score"], reverse=True)` calls in the priority agent. -/
def scoreGE (a b : ScoredTask) : Prop := b.priority_score ≤ a.priority_score

instance : DecidableRel scoreGE := fun _ _ => inferInstanceAs (Decidable (_ ≤ _))

/-- Python's stable descending sort by `priority_score` (see the header note on
stable sorts). -/
def sortByScoreDesc (l : List ScoredTask) : List ScoredTask :=
  l.insertionSort scoreGE

/-- Embedding of `for idx, task in enumerate(tasks): task["rank"] = idx + 1`,
with `n` the number of already-ranked predecessors. -/
def assignRanksFrom : ℕ → List ScoredTask → List ScoredTask
  | _, [] => []
  | n, t :: ts => { t with rank := some (n + 1) } :: assignRanksFrom (n + 1) ts

/-- Dense 1-based rank assignment after each sort in the priority agent. -/
def assignRanks (l : List ScoredTask) : List ScoredTask := assignRanksFrom 0 l

/-- Default of `get_preference("morning_categories", ["meeting", "review"])`. -/
def defaultMorningCategories : List String := ["meeting", "review"]

/-- Per-task preference adjustment in `_apply_user_preferences`: +0.2 to the
score of a task whose category (read without default) is in the preferred
list. -/
def adjustTask (preferred : List String) (t : ScoredTask) : ScoredTask :=
  match t.category with
  | some c =>
      if preferred.contains c then
        { t with priority_score := t.priority_score + 1/5, adjusted_for_preferences := true }
      else t
  | none => t

/-- Embedding of `PriorityAgent._apply_user_preferences`: bump preferred
categories, re-sort descending by score, re-assign ranks. -/
def applyUserPreferences (preferred : List String) (l : List ScoredTask) : List ScoredTask :=
  assignRanks (sortByScoreDesc (l.map (adjustTask preferred)))

/-- Embedding of the `PriorityAgent.prioritize_tasks` pipeline on the task
list: score each task, sort descending, rank, then apply preferences (which
re-sorts and re-ranks). -/
def prioritizeTasks (daysUntil : String → Option ℤ) (preferred : List String)
    (tasks : List Task) : List ScoredTask :=
  applyUserPreferences preferred (assignRanks (sortByScoreDesc (tasks.map (scoreTask daysUntil))))

/-! ## src/agents/planner_agent.py -/

/-- Embedding of a task dict as consumed by `PlannerAgent._schedule_tasks`:
`x["priority"]`, `t["name"]` and `t["category"]` are indexed directly (the
code would raise `KeyError` on their absence), while `deadline` and
`estimated_duration` are read with `.get`. -/
structure PlannerTask where
  name : String
  category : String
  priority : String
  estimated_duration : Option ℕ := none
  deadline : Option String := none
deriving DecidableEq, Repr

/-- Priority rank used by the scheduler sort:
`{"high": 1, "medium": 2, "low": 3}.get(x["priority"], 2)`. -/
def priorityRank (p : String) : ℕ :=
  match p with
  | "high" => 1
  | "medium" => 2
  | "low" => 3
  | _ => 2

/-- Sort key of `_schedule_tasks`: the pair
`(priority rank, x.get("deadline", ""))`; an absent deadline becomes `""`. -/
def schedKey (t : PlannerTask) : ℕ × String :=
  (priorityRank t.priority, t.deadline.getD "")

/-- Lexicographic comparison of scheduler sort keys (Python tuple `<=`). -/
def schedKeyLE (a b : PlannerTask) : Prop :=
  (schedKey a).1 < (schedKey b).1 ∨
    ((schedKey a).1 = (schedKey b).1 ∧ (schedKey a).2 ≤ (schedKey b).2)

instance : DecidableRel schedKeyLE := fun _ _ =>
  inferInstanceAs (Decidable (_ ∨ _ ∧ _))

/-- Python's stable ascending sort by `(priority rank, deadline string)` at the
top of `_schedule_tasks` (see the header note on stable sorts). -/
def schedSort (l : List PlannerTask) : List PlannerTask :=
  l.insertionSort schedKeyLE

/-- Embedding of a schedule-block dict.  Break blocks carry no `category` or
`priority` key; times are minutes since local midnight. -/
structure ScheduleBlock where
  type : String
  name : String
  category : Option String := none
  priority : Option String := none
  start_time : ℕ
  end_time : ℕ
  duration : ℕ
deriving DecidableEq, Repr

/-- Anchor of the schedule: `now.replace(hour=9, minute=0, ...)`, i.e. 9:00. -/
def workdayStart : ℕ := 9 * 60

/-- Break length after a task: `15 if duration >= 60 else 5`. -/
def breakLength (duration : ℕ) : ℕ := if duration ≥ 60 then 15 else 5

/-- Embedding of the layout loop of `_schedule_tasks`: starting at `current`,
each task yields a task block of `estimated_duration` (default 60) minutes
immediately followed by its break block, and the cursor advances to the break's
end. -/
def scheduleFrom : ℕ → List PlannerTask → List ScheduleBlock
  | _, [] => []
  | current, t :: ts =>
    let duration := t.estimated_duration.getD 60
    let endTime := current + duration
    let breakLen := breakLength duration
    { type := "task", name := t.name, category := some t.category,
      priority := some t.priority, start_time := current, end_time := endTime,
      duration := duration } ::
    { type := "break", name := toString breakLen ++ "-minute break",
      start_time := endTime, end_time := endTime + breakLen,
      duration := breakLen } ::
    scheduleFrom (endTime + breakLen) ts

/-- Embedding of `PlannerAgent._schedule_tasks`: sort, then lay out blocks from
09:00. -/
def scheduleTasks (tasks : List PlannerTask) : List ScheduleBlock :=
  scheduleFrom workdayStart (schedSort tasks)

/-! ## src/evaluation/plan_evaluator.py -/

/-- Embedding of the plan dict as read by `PlanEvaluator`: it only reads
`plan.get("scheduled_tasks", [])` and `plan.get("includes_breaks", False)`.
The dict returned by `PlannerAgent.create_plan` has keys `scheduled_tasks`,
`formatted_schedule`, `task_count` and `total_work_minutes` — it never sets
`includes_breaks`, so for a scheduler-produced plan that field is the `False`
default. -/
structure EvalPlan where
  scheduled_tasks : List ScheduleBlock := []
  includes_breaks : Bool := false
deriving DecidableEq, Repr

/-- The plan dict the orchestrator passes to `evaluate_plan` for a given task
list: `create_plan`'s output, whose missing `includes_breaks` key reads as
`False`. -/
def plannerPlan (tasks : List PlannerTask) : EvalPlan :=
  { scheduled_tasks := scheduleTasks tasks, includes_breaks := false }

/-- Total duration summed by the evaluator's scorers over all blocks
(`sum(t.get("duration", 0) for t in scheduled_tasks)`); note this includes
break blocks. -/
def totalDuration (blocks : List ScheduleBlock) : ℕ :=
  (blocks.map (fun b => b.duration)).sum

/-- Embedding of `PlanEvaluator._score_time_efficiency`. -/
def scoreTimeEfficiency (plan : EvalPlan) : ℚ :=
  if plan.scheduled_tasks = [] then 0
  else
    let total := totalDuration plan.scheduled_tasks
    let s1 : ℚ := if total < 360 then 25 - 5 else if total > 480 then 25 - 5 else 25
    let s2 : ℚ := if plan.scheduled_tasks.length < 3 then s1 - 3 else s1
    max 0 s2

/-- Penalty accumulated by the block loop of `_score_priority_alignment`
(`idx` is the 0-based position; the loop runs over every block, with break
blocks reading priority `"medium"` via `task.get("priority", "medium")`). -/
def alignmentPenalty : ℕ → List ScheduleBlock → ℚ
  | _, [] => 0
  | idx, b :: bs =>
    (if b.priority.getD "medium" = "high" ∧ idx > 2 then 3
     else if b.priority.getD "medium" = "low" ∧ idx = 0 then 2 else 0) +
    alignmentPenalty (idx + 1) bs

/-- Embedding of `PlanEvaluator._score_priority_alignment` (the
`original_tasks` argument is accepted and ignored, as in the source). -/
def scorePriorityAlignment (plan : EvalPlan) (_original_tasks : List Task) : ℚ :=
  max 0 (25 - alignmentPenalty 0 plan.scheduled_tasks)

/-- Per-task overlong penalty in `_score_feasibility`: 2 points for each block
whose duration exceeds 180 minutes. -/
def overlongPenalty (blocks : List ScheduleBlock) : ℚ :=
  (blocks.map (fun b => if b.duration > 180 then (2 : ℚ) else 0)).sum

/-- Embedding of `PlanEvaluator._score_feasibility`. -/
def scoreFeasibility (plan : EvalPlan) : ℚ :=
  let total := totalDuration plan.scheduled_tasks
  let base : ℚ := if total > 540 then 10 else if total > 480 then 5 else 0
  max 0 (25 - base - overlongPenalty plan.scheduled_tasks)

/-- Embedding of the user-preferences dict as read by the evaluator
(`(user_preferences or {}).get("max_work_hours", 8)`). -/
structure EvalPrefs where
  max_work_hours : Option ℚ := none
deriving DecidableEq, Repr

/-- Embedding of `PlanEvaluator._score_work_life_balance`: the break check
reads the `includes_breaks` flag, not the block list. -/
def scoreWorkLifeBalance (plan : EvalPlan) (user_preferences : Option EvalPrefs) : ℚ :=
  let s1 : ℚ := if plan.includes_breaks then 25 else 25 - 5
  let total := totalDuration plan.scheduled_tasks
  let s2 : ℚ := if total > 600 then s1 - 10 else s1
  let preferred_hours : ℚ := ((user_preferences.getD {}).max_work_hours).getD 8
  let s3 : ℚ := if (total : ℚ) > preferred_hours * 60 then s2 - 5 else s2
  max 0 s3

/-- Embedding of the result dict of `PlanEvaluator.evaluate_plan` (the fields
the claims are about). -/
structure EvaluationResult where
  time_efficiency : ℚ
  priority_alignment : ℚ
  feasibility : ℚ
  work_life_balance : ℚ
  total_score : ℚ
  grade : String
deriving DecidableEq, Repr

/-- Embedding of `PlanEvaluator._calculate_grade`. -/
def calculateGrade (total_score : ℚ) : String :=
  if 90 ≤ total_score then "A"
  else if 80 ≤ total_score then "B"
  else if 70 ≤ total_score then "C"
  else if 60 ≤ total_score then "D"
  else "F"

/-- Embedding of `PlanEvaluator.evaluate_plan`: the four sub-scores, their sum
and the letter grade. -/
def evaluatePlan (plan : EvalPlan) (original_tasks : List Task)
    (user_preferences : Option EvalPrefs) : EvaluationResult :=
  let te := scoreTimeEfficiency plan
  let pa := scorePriorityAlignment plan original_tasks
  let fe := scoreFeasibility plan
  let wlb := scoreWorkLifeBalance plan user_preferences
  { time_efficiency := te, priority_alignment := pa, feasibility := fe,
    work_life_balance := wlb, total_score := te + pa + fe + wlb,
    grade := calculateGrade (te + pa + fe + wlb) }

/-! ## src/memory/memory_bank.py -/

/-- Embedding of the `task_record` dict built by
`MemoryBank.store_task_completion` (`completed_at` is the ISO string of the
completion time). -/
structure TaskRecord where
  task_id : Option String := none
  task_name : Option String := none
  category : Option String := none
  estimated_duration : Option ℕ := none
  actual_duration : Option ℕ := none
  completed_at : String := ""
  priority : Option String := none
  success : Bool := true
deriving DecidableEq, Repr

/-- Record construction inside `store_task_completion`. -/
def mkTaskRecord (task : Task) (completed_at : String)
    (actual_duration_minutes : Option ℕ) : TaskRecord :=
  { task_id := task.id, task_name := task.name, category := task.category,
    estimated_duration := task.estimated_duration,
    actual_duration := actual_duration_minutes, completed_at := completed_at,
    priority := task.priority, success := true }

/-- Embedding of the history update performed by
`MemoryBank.store_task_completion`: append the new record, then keep only the
last 1000 entries (`history[-1000:]`) when the list exceeds 1000. -/
def storeTaskCompletion (history : List TaskRecord) (task : Task)
    (completed_at : String) (actual_duration_minutes : Option ℕ) : List TaskRecord :=
  let h := history ++ [mkTaskRecord task completed_at actual_duration_minutes]
  if h.length > 1000 then h.drop (h.length - 1000) else h

/-! ## src/agents/reflection_agent.py -/

/-- Embedding of the analysis dict returned by
`ReflectionAgent._analyze_completion`. -/
structure CompletionAnalysis where
  planned_tasks : ℕ
  completed_tasks : ℕ
  incomplete_tasks : ℤ
  completion_rate : ℚ
  status : String
deriving DecidableEq, Repr

/-- Embedding of `ReflectionAgent._get_completion_status`. -/
def getCompletionStatus (rate : ℚ) : String :=
  if 90 ≤ rate then "excellent"
  else if 70 ≤ rate then "good"
  else if 50 ≤ rate then "fair"
  else "needs_improvement"

/-- Embedding of `ReflectionAgent._analyze_completion`: the rate is
`(completed_count / planned_count) * 100` guarded on `planned_count == 0`, the
status is bucketed from the unrounded rate, and the reported rate is rounded to
one decimal. -/
def analyzeCompletion (completed planned : List Task) : CompletionAnalysis :=
  let planned_count := planned.length
  let completed_count := completed.length
  let completion_rate : ℚ :=
    if planned_count = 0 then 0 else ((completed_count : ℚ) / planned_count) * 100
  { planned_tasks := planned_count, completed_tasks := completed_count,
    incomplete_tasks := (planned_count : ℤ) - completed_count,
    completion_rate := round1 completion_rate,
    status := getCompletionStatus completion_rate }

/-- Decimal rendering of the rate inside the f-string
`f"Low completion rate ({completion_rate:.1f}%)."` for the nonnegative rates
that occur (one digit after the point; see `round2` on rounding fidelity). -/
def fmt1 (q : ℚ) : String :=
  let n := (round (10 * q) : ℤ).toNat
  toString (n / 10) ++ "." ++ toString (n % 10)

/-- Reason text appended by trigger 1 (low completion rate) of
`ReflectionAgent._should_replan`. -/
def lowCompletionReason (rate : ℚ) : String :=
  "Low completion rate (" ++ fmt1 rate ++ "%). Tasks may need re-prioritization."

/-- Reason text appended by trigger 2 (incomplete high-priority tasks) of
`ReflectionAgent._should_replan`. -/
def highPriorityReason (n : ℕ) : String :=
  toString n ++ " high-priority tasks incomplete. Recommend re-planning remaining tasks."

/-- Embedding of the decision dict returned by `ReflectionAgent._should_replan`
(the `planned == []` early return carries only `needed` and `reason`, hence
the optional fields). -/
structure ReplanDecision where
  needed : Bool
  reason : String
  incomplete_tasks : Option ℤ := none
  completion_rate : Option ℚ := none
deriving DecidableEq, Repr

/-- The incomplete-high-priority filter of `_should_replan`: planned tasks of
priority `"high"` whose `id` is not among the completed ids.  As in Python
(`t.get("id") not in [c.get("id") for c in completed]`), two absent ids compare
equal (`None in [None]` is `True`). -/
def incompleteHighPriority (completed planned : List Task) : List Task :=
  planned.filter fun t =>
    t.priority == some "high" && !((completed.map (fun c => c.id)).contains t.id)

/-- Embedding of `ReflectionAgent._should_replan`: guard on empty planned list,
then the disjunction of the two triggers, with the reason texts joined by a
space (or the fixed on-track message when no trigger fires). -/
def shouldReplan (completed planned : List Task) : ReplanDecision :=
  if planned.length = 0 then
    { needed := false, reason := "No planned tasks to review" }
  else
    let completion_rate : ℚ := ((completed.length : ℚ) / planned.length) * 100
    let trigger1 := completion_rate < 50
    let trigger2 := (incompleteHighPriority completed planned).length ≥ 2
    let reasons : List String :=
      (if trigger1 then [lowCompletionReason completion_rate] else []) ++
      (if trigger2 then [highPriorityReason (incompleteHighPriority completed planned).length] else [])
    { needed := decide trigger1 || decide trigger2,
      reason := if reasons = [] then "On track, no re-planning needed"
                else String.intercalate " " reasons,
      incomplete_tasks := some ((planned.length : ℤ) - completed.length),
      completion_rate := some (round1 completion_rate) }

instance : IsTotal ScoredTask scoreGE :=
  ⟨fun a b => le_total b.priority_score a.priority_score⟩

instance : IsTrans ScoredTask scoreGE :=
  ⟨fun _ _ _ h1 h2 => le_trans h2 h1⟩

instance : IsTotal PlannerTask schedKeyLE := by
  refine ⟨fun a b => ?_⟩
  rcases lt_trichotomy (schedKey a).1 (schedKey b).1 with h | h | h
  · exact Or.inl (Or.inl h)
  · rcases le_total (schedKey a).2 (schedKey b).2 with h2 | h2
    · exact Or.inl (Or.inr ⟨h, h2⟩)
    · exact Or.inr (Or.inr ⟨h.symm, h2⟩)
  · exact Or.inr (Or.inl h)

instance : IsTrans PlannerTask schedKeyLE := by
  refine ⟨fun a b c h1 h2 => ?_⟩
  rcases h1 with h1 | ⟨e1, l1⟩ <;> rcases h2 with h2 | ⟨e2, l2⟩
  · exact Or.inl (h1.trans h2)
  · exact Or.inl (e2 ▸ h1)
  · exact Or.inl (lt_of_le_of_lt (le_of_eq e1) h2)
  · exact Or.inr ⟨e1.trans e2, l1.trans l2⟩

/-- Relation between consecutive schedule blocks (claim C6): contiguous in
time, alternating in type, and a break's length is determined by the preceding
task's duration. -/
def adjacentOK (a b : ScheduleBlock) : Prop :=
  a.end_time = b.start_time ∧
    ((a.type = "task" ∧ b.type = "break" ∧ b.duration = breakLength a.duration) ∨
     (a.type = "break" ∧ b.type = "task"))

/-! ## Concrete inputs used by counterexamples and witnesses -/

/-- A high-priority planned task with no `id` key. -/
def c1Task : Task := { priority := some "high" }

/-- Planned list of the spec scenario: two high-priority tasks without ids. -/
def c1Planned : List Task := [c1Task, c1Task]

/-- Preferred-category task (review, effort bucket 4): pre-adjustment score
1.8, adjusted to 2.0. -/
def c2TaskA : Task :=
  { name := some "TaskA", priority := some "low", category := some "review",
    estimated_duration := some 150 }

/-- Non-preferred task (coding, effort bucket 2): pre-adjustment score 2.0,
unadjusted. -/
def c2TaskB : Task :=
  { name := some "TaskB", priority := some "low", category := some "coding",
    estimated_duration := some 45 }

/-- A dated medium-priority task. -/
def c3Dated : PlannerTask :=
  { name := "Dated", category := "general", priority := "medium",
    deadline := some "2099-12-31" }

/-- An undated medium-priority task, listed after the dated one. -/
def c3Undated : PlannerTask :=
  { name := "Undated", category := "general", priority := "medium" }

/-- A single short task; its schedule is one task block plus one break block. -/
def c4Task : PlannerTask :=
  { name := "Standup", category := "meeting", priority := "medium",
    estimated_duration := some 30 }

/-- A task dict with no fields set. -/
def emptyTask : Task := {}

/-! ## General lemmas about the stable sort -/

/-- Inserting `x` does not disturb the filtered subsequence of any class of
mutually `r`-related elements containing `x`: `x` lands in front of all of
them, exactly where `orderedInsert` starts. -/
theorem filter_orderedInsert {α : Type _} (r : α → α → Prop) [DecidableRel r]
    (p : α → Bool) (x : α) :
    ∀ l : List α, (∀ y ∈ l, p x = true → p y = true → r x y) →
      (l.orderedInsert r x).filter p = (x :: l).filter p
  | [] => fun _ => rfl
  | y :: ys => fun h => by
    rw [List.orderedInsert]
    by_cases hxy : r x y
    · rw [if_pos hxy]
    · rw [if_neg hxy]
      have hys := filter_orderedInsert r p x ys (fun z hz => h z (List.mem_cons_of_mem _ hz))
      by_cases hpx : p x = true
      · by_cases hpy : p y = true
        · exact absurd (h y (List.mem_cons_self _ _) hpx hpy) hxy
        · simp [List.filter_cons, hys, hpx, hpy]
      · simp [List.filter_cons, hys, hpx]

/-- Stability of `List.insertionSort` phrased on filters: the subsequence of
any class of mutually `r`-related elements (for us: elements sharing one sort
key) is exactly preserved. -/
theorem filter_insertionSort {α : Type _} (r : α → α → Prop) [DecidableRel r]
    (p : α → Bool) (hp : ∀ x y, p x = true → p y = true → r x y) :
    ∀ l : List α, (l.insertionSort r).filter p = l.filter p
  | [] => rfl
  | x :: xs => by
    rw [List.insertionSort,
      filter_orderedInsert r p x _ (fun y _ hx hy => hp x y hx hy)]
    simp only [List.filter_cons]
    rw [filter_insertionSort r p hp xs]

/-! ## Claim theorems -/

/-- C1, counterexample: in the scenario `completed = []`,
`planned = [c1Task, c1Task]` (two high-priority tasks without ids), the replan
reason is NOT only the low-completion-rate text — trigger 2 fires as well,
because an id-less task's `None` id is never found in the empty completed-id
list, so both tasks count as incomplete high-priority tasks. -/
theorem c1_counterexample :
    (shouldReplan [] c1Planned).reason ≠
      "Low completion rate (0.0%). Tasks may need re-prioritization." := by
  norm_num +decide [shouldReplan, c1Planned, c1Task, incompleteHighPriority,
    lowCompletionReason, highPriorityReason, fmt1, round_eq, Int.floor_eq_iff]

/-- C1, amended: for `completed = []` and `planned` two id-less high-priority
tasks, the decision has `completion_rate = 0` and `replan_needed = True`, and
the reason contains BOTH trigger texts: the low-completion-rate text and the
high-priority-incomplete text (trigger 2 fires because tasks without ids never
match a completed id, hence always count as incomplete). -/
theorem c1_amended :
    (shouldReplan [] c1Planned).needed = true ∧
    (shouldReplan [] c1Planned).reason =
      "Low completion rate (0.0%). Tasks may need re-prioritization. 2 high-priority tasks incomplete. Recommend re-planning remaining tasks." ∧
    (shouldReplan [] c1Planned).completion_rate = some 0 ∧
    (shouldReplan [] c1Planned).incomplete_tasks = some 2 ∧
    (analyzeCompletion [] c1Planned).completion_rate = 0 ∧
    c1Planned.all (fun t => t.id == none && t.priority == some "high") = true := by
  refine ⟨?_, ?_, ?_, ?_, ?_, by decide⟩ <;>
    norm_num +decide [shouldReplan, analyzeCompletion, c1Planned, c1Task,
      incompleteHighPriority, lowCompletionReason, highPriorityReason, fmt1,
      round1, round_eq, Int.floor_eq_iff] <;>
    decide

/-- C2, counterexample: on input `[c2TaskA, c2TaskB]` both tasks end with
final score 2.0 (TaskA reaches it through the +0.2 preference adjustment), yet
the scorer returns them as `[TaskB, TaskA]` — the reverse of the original
input order, because the final stable sort starts from the intermediate
pre-adjustment ranking `[TaskB (2.0), TaskA (1.8)]`. -/
theorem c2_counterexample :
    ((prioritizeTasks (fun _ => none) defaultMorningCategories [c2TaskA, c2TaskB]).map
        (fun t => t.name)) = [some "TaskB", some "TaskA"] ∧
    ((prioritizeTasks (fun _ => none) defaultMorningCategories [c2TaskA, c2TaskB]).map
        (fun t => t.priority_score)) = [2, 2] := by
  refine ⟨?_, ?_⟩ <;>
    norm_num +decide [prioritizeTasks, applyUserPreferences, sortByScoreDesc,
      assignRanks, assignRanksFrom, List.insertionSort, List.orderedInsert,
      scoreTask, scoreGE, adjustTask, c2TaskA, c2TaskB, calculate_priority_score,
      urgencyOf, importanceOf, effortOf, deadlineDaysOf, defaultMorningCategories,
      round2, round_eq, Int.floor_eq_iff]

/-- C3, counterexample: with the dated task listed first, the scheduler sort
returns the undated task FIRST — a task without a deadline sorts with key
`""`, which precedes every dated task of the same priority, contradicting the
claim that undated tasks are placed after all dated ones. -/
theorem c3_counterexample :
    (schedSort [c3Dated, c3Undated]).map (fun t => t.name) = ["Undated", "Dated"] ∧
    c3Dated.deadline = some "2099-12-31" ∧ c3Undated.deadline = none := by
  refine ⟨?_, by decide, by decide⟩
  norm_num +decide [schedSort, List.insertionSort, List.orderedInsert,
    schedKeyLE, schedKey, priorityRank, c3Dated, c3Undated]

/-- C4 (code bug): the schedule built for the single task `c4Task` contains a
break block, yet the work-life-balance sub-score of the scheduler-produced
plan is 20, i.e. it DOES receive the 5-point no-breaks penalty: the evaluator
tests `plan.get("includes_breaks", False)` and `create_plan` never sets that
key (its own consumers, e.g. `src/main.py`, read `planned["includes_breaks"]`
and would fail), so the flag defaults to `False` for every scheduler plan. -/
theorem c4_code_bug :
    ((plannerPlan [c4Task]).scheduled_tasks.any (fun b => b.type == "break")) = true ∧
    (plannerPlan [c4Task]).includes_breaks = false ∧
    scoreWorkLifeBalance (plannerPlan [c4Task]) none = 20 := by
  refine ⟨?_, rfl, ?_⟩ <;>
    norm_num +decide [scoreWorkLifeBalance, plannerPlan, scheduleTasks, schedSort,
      List.insertionSort, List.orderedInsert, scheduleFrom, totalDuration, c4Task,
      workdayStart, breakLength] <;>
    try decide

/-- C8: after every `store_task_completion` call the history has at most 1000
entries; its new length is `min (old + 1) 1000`, and the kept entries are
exactly the most recent suffix of the appended list (pure FIFO eviction from
the front). -/
theorem c8_history_bound (history : List TaskRecord) (task : Task)
    (completed_at : String) (actual : Option ℕ) :
    (storeTaskCompletion history task completed_at actual).length ≤ 1000 ∧
    (storeTaskCompletion history task completed_at actual).length =
      min (history.length + 1) 1000 ∧
    storeTaskCompletion history task completed_at actual =
      (history ++ [mkTaskRecord task completed_at actual]).drop
        (history.length + 1 - 1000) := by
  have key : storeTaskCompletion history task completed_at actual =
      if (history ++ [mkTaskRecord task completed_at actual]).length > 1000 then
        (history ++ [mkTaskRecord task completed_at actual]).drop
          ((history ++ [mkTaskRecord task completed_at actual]).length - 1000)
      else history ++ [mkTaskRecord task completed_at actual] := rfl
  have hlen : (history ++ [mkTaskRecord task completed_at actual]).length
      = history.length + 1 := by simp
  rw [key, hlen]
  split_ifs with h
  · refine ⟨?_, ?_, rfl⟩ <;> rw [List.length_drop, hlen] <;> omega
  · have h0 : history.length + 1 - 1000 = 0 := by omega
    rw [h0, List.drop_zero]
    refine ⟨?_, ?_, rfl⟩ <;> rw [hlen] <;> omega

/-- C9: reflection on an empty planned list reports a completion rate of 0 and
no re-plan, with the fixed non-empty reason string, for every completed list
(the division is guarded, never performed). -/
theorem c9_empty_planned (completed : List Task) :
    (analyzeCompletion completed []).completion_rate = 0 ∧
    (shouldReplan completed []).needed = false ∧
    (shouldReplan completed []).reason = "No planned tasks to review" ∧
    (shouldReplan completed []).reason ≠ "" := by
  refine ⟨?_, ?_, ?_, ?_⟩ <;>
    norm_num [analyzeCompletion, shouldReplan, round1, round_eq] <;>
    try decide

/-- C10, counterexample: with 3 planned and 4 completed tasks the completion
analysis reports `completion_rate = 133.3` — the rounded value — which differs
from the claimed exact `100 * 4 / 3`; the status is still `"excellent"`. -/
theorem c10_counterexample :
    (analyzeCompletion (List.replicate 4 emptyTask) (List.replicate 3 emptyTask)).completion_rate
        ≠ 100 * (4 : ℚ) / 3 ∧
    (analyzeCompletion (List.replicate 4 emptyTask) (List.replicate 3 emptyTask)).status
        = "excellent" := by
  refine ⟨?_, ?_⟩ <;>
    norm_num [analyzeCompletion, getCompletionStatus, round1, round_eq,
      Int.floor_eq_iff]

/-- C10, amended: for any non-empty planned list and strictly longer completed
list, the completion rate `100·|completed|/|planned|` computed by the
completion analysis exceeds 100 (no clamping), and the status bucketed from
that unrounded rate is `"excellent"`.  (The stored `completion_rate` field is
the rate rounded to one decimal by Python's `round`, whose half-to-even
behaviour at representable halves is outside this rational model, so the
theorem asserts nothing about the rounded field here.) -/
theorem c10_amended (completed planned : List Task) (h1 : planned ≠ [])
    (h2 : planned.length < completed.length) :
    (analyzeCompletion completed planned).status = "excellent" ∧
    (100 : ℚ) * completed.length / planned.length > 100 := by
  have hne : planned.length ≠ 0 := fun h => h1 (List.length_eq_zero.mp h)
  have hp : (0 : ℚ) < planned.length := by
    have : 0 < planned.length := Nat.pos_of_ne_zero hne
    exact_mod_cast this
  have hc : (planned.length : ℚ) < completed.length := by exact_mod_cast h2
  have hdiv : (1 : ℚ) < (completed.length : ℚ) / planned.length :=
    (one_lt_div hp).mpr hc
  have hrate : (100 : ℚ) < ((completed.length : ℚ) / planned.length) * 100 := by
    nlinarith
  have hcomm : ((completed.length : ℚ) / planned.length) * 100
      = 100 * completed.length / planned.length := by ring
  refine ⟨?_, ?_⟩
  · show getCompletionStatus _ = _
    simp only [analyzeCompletion, hne, if_false, ite_false, getCompletionStatus]
    rw [if_pos (by linarith : (90 : ℚ) ≤ ((completed.length : ℚ) / planned.length) * 100)]
  · rw [← hcomm]; exact hrate

/-- C5: for every task the composite priority score equals
`0.4·urgency + 0.4·importance + 0.1·(6 − effort) + deadline_bonus` rounded to
2 decimals, where the bonus is the step function of the derived
`deadline_days` and 0 when `deadline_days` is `None` (absent or unparseable
deadline). -/
theorem c5_score_formula (daysUntil : String → Option ℤ) (t : Task) :
    (scoreTask daysUntil t).priority_score =
      round2 ((2/5) * ((scoreTask daysUntil t).scoring_details.urgency : ℚ)
        + (2/5) * ((scoreTask daysUntil t).scoring_details.importance : ℚ)
        + (1/10) * (6 - ((scoreTask daysUntil t).scoring_details.effort : ℚ))
        + match (scoreTask daysUntil t).scoring_details.deadline_days with
          | none => 0
          | some d =>
            if d ≤ 1 then 1/2 else if d ≤ 3 then 3/10 else if d ≤ 7 then 1/10 else 0) := by
  simp only [scoreTask, calculate_priority_score]
  congr 1
  cases deadlineDaysOf daysUntil t.deadline with
  | none => dsimp only; ring
  | some d => dsimp only; split_ifs <;> ring

/-- Scores are untouched by rank assignment. -/
theorem map_score_assignRanksFrom : ∀ (n : ℕ) (l : List ScoredTask),
    (assignRanksFrom n l).map (fun t => t.priority_score) =
      l.map (fun t => t.priority_score)
  | _, [] => rfl
  | n, t :: ts => by
    simp [assignRanksFrom, map_score_assignRanksFrom (n + 1) ts]

/-- C2, amended: after the preference adjustment the scorer re-sorts
descending by final `priority_score`, and any two tasks with equal final
scores appear in the relative order they had in the intermediate
post-adjustment list (i.e. the order of the first, pre-adjustment sort:
descending pre-adjustment score, with input order only breaking THOSE ties) —
not necessarily in original input order. -/
theorem c2_amended (daysUntil : String → Option ℤ) (preferred : List String)
    (tasks : List Task) :
    prioritizeTasks daysUntil preferred tasks =
      assignRanks (sortByScoreDesc
        ((assignRanks (sortByScoreDesc (tasks.map (scoreTask daysUntil)))).map
          (adjustTask preferred))) ∧
    List.Sorted (fun a b : ℚ => b ≤ a)
      ((prioritizeTasks daysUntil preferred tasks).map (fun t => t.priority_score)) ∧
    ∀ c : ℚ,
      (sortByScoreDesc ((assignRanks (sortByScoreDesc (tasks.map (scoreTask daysUntil)))).map
          (adjustTask preferred))).filter (fun t => decide (t.priority_score = c)) =
        ((assignRanks (sortByScoreDesc (tasks.map (scoreTask daysUntil)))).map
          (adjustTask preferred)).filter (fun t => decide (t.priority_score = c)) := by
  refine ⟨rfl, ?_, fun c => ?_⟩
  · show List.Sorted _ ((assignRanksFrom 0
      (sortByScoreDesc ((assignRanks (sortByScoreDesc (tasks.map (scoreTask daysUntil)))).map
        (adjustTask preferred)))).map (fun t => t.priority_score))
    rw [map_score_assignRanksFrom]
    unfold sortByScoreDesc
    exact List.Pairwise.map _ (fun a b (h : scoreGE a b) => h)
      (List.sorted_insertionSort scoreGE _)
  · unfold sortByScoreDesc
    apply filter_insertionSort
    intro x y hx hy
    have hx' : x.priority_score = c := of_decide_eq_true hx
    have hy' : y.priority_score = c := of_decide_eq_true hy
    show y.priority_score ≤ x.priority_score
    rw [hx', hy']

/-- C3, amended: the scheduler sorts by `(priority rank, deadline string)`
lexicographically ascending — an absent deadline becomes the empty string and
therefore sorts BEFORE all dated tasks of the same priority — with ties in
that key keeping original input order. -/
theorem c3_amended (tasks : List PlannerTask) :
    scheduleTasks tasks = scheduleFrom workdayStart (schedSort tasks) ∧
    List.Sorted schedKeyLE (schedSort tasks) ∧
    ∀ k : ℕ × String, (schedSort tasks).filter (fun t => decide (schedKey t = k)) =
      tasks.filter (fun t => decide (schedKey t = k)) := by
  refine ⟨rfl, ?_, fun k => ?_⟩
  · unfold schedSort
    exact List.sorted_insertionSort schedKeyLE tasks
  · unfold schedSort
    apply filter_insertionSort
    intro x y hx hy
    have hx' : schedKey x = k := of_decide_eq_true hx
    have hy' : schedKey y = k := of_decide_eq_true hy
    exact Or.inr ⟨by rw [hx', hy'], le_of_eq (by rw [hx', hy'])⟩

/-- Witness for C10's amended theorem at 3 completed vs 2 planned tasks. -/
theorem c10_amended_witness :
    ([emptyTask, emptyTask] : List Task) ≠ [] ∧
    ([emptyTask, emptyTask] : List Task).length <
      ([emptyTask, emptyTask, emptyTask] : List Task).length ∧
    (analyzeCompletion [emptyTask, emptyTask, emptyTask] [emptyTask, emptyTask]).status
      = "excellent" :=
  ⟨by decide, by decide,
    (c10_amended [emptyTask, emptyTask, emptyTask] [emptyTask, emptyTask]
      (by decide) (by decide)).1⟩

/-- Structural invariants of the layout loop, for every cursor position: the
blocks chain contiguously and alternate, the first block (if any) is a task
block starting at the cursor, and the last block (if any) is a break block. -/
theorem scheduleFrom_spec (ts : List PlannerTask) : ∀ current : ℕ,
    List.Chain' adjacentOK (scheduleFrom current ts) ∧
    (∀ b ∈ (scheduleFrom current ts).head?, b.start_time = current ∧ b.type = "task") ∧
    (∀ b ∈ (scheduleFrom current ts).getLast?, b.type = "break") := by
  induction ts with
  | nil =>
    intro current
    refine ⟨List.chain'_nil, ?_, ?_⟩ <;> simp [scheduleFrom]
  | cons t ts ih =>
    intro current
    obtain ⟨ihc, ihh, ihl⟩ :=
      ih (current + t.estimated_duration.getD 60 + breakLength (t.estimated_duration.getD 60))
    simp only [scheduleFrom]
    refine ⟨?_, ?_, ?_⟩
    · rw [List.chain'_cons]
      refine ⟨⟨rfl, Or.inl ⟨rfl, rfl, rfl⟩⟩, ?_⟩
      rw [List.chain'_cons']
      refine ⟨fun y hy => ?_, ihc⟩
      obtain ⟨hstart, htype⟩ := ihh y hy
      exact ⟨hstart.symm, Or.inr ⟨rfl, htype⟩⟩
    · intro b hb
      simp only [List.head?_cons, Option.mem_def, Option.some.injEq] at hb
      subst hb
      exact ⟨rfl, rfl⟩
    · intro b hb
      rw [List.getLast?_cons_cons] at hb
      cases hrest : scheduleFrom
          (current + t.estimated_duration.getD 60 +
            breakLength (t.estimated_duration.getD 60)) ts with
      | nil =>
        rw [hrest] at hb
        simp only [List.getLast?_singleton, Option.mem_def, Option.some.injEq] at hb
        subst hb
        rfl
      | cons r rs =>
        rw [hrest] at hb
        rw [List.getLast?_cons_cons] at hb
        apply ihl
        rw [hrest]
        exact hb

/-- C6: every schedule the scheduler produces is gap-free and overlap-free
(each block's end is the next block's start), task and break blocks strictly
alternate starting with a task block and ending with a break block, and the
break that immediately follows each task block is 15 minutes long when the
task's duration is at least 60 minutes and 5 minutes long otherwise. -/
theorem c6_schedule_invariants (tasks : List PlannerTask) :
    List.Chain' adjacentOK (scheduleTasks tasks) ∧
    (scheduleTasks tasks).head?.all (fun b => b.type == "task") = true ∧
    (scheduleTasks tasks).getLast?.all (fun b => b.type == "break") = true := by
  obtain ⟨hc, hh, hl⟩ := scheduleFrom_spec (schedSort tasks) workdayStart
  refine ⟨hc, ?_, ?_⟩
  · cases hhead : (scheduleTasks tasks).head? with
    | none => rfl
    | some b =>
      have hb := hh b (Option.mem_def.mpr hhead)
      simp [Option.all, hb.2]
  · cases hlast : (scheduleTasks tasks).getLast? with
    | none => rfl
    | some b =>
      have hb := hl b (Option.mem_def.mpr hlast)
      simp [Option.all, hb]

/-- The per-position alignment penalty is nonnegative. -/
theorem alignmentPenalty_nonneg (l : List ScheduleBlock) :
    ∀ idx : ℕ, 0 ≤ alignmentPenalty idx l := by
  induction l with
  | nil => intro idx; simp [alignmentPenalty]
  | cons b bs ih =>
    intro idx
    have h1 := ih (idx + 1)
    have h0 : (0 : ℚ) ≤
        (if b.priority.getD "medium" = "high" ∧ idx > 2 then (3 : ℚ)
         else if b.priority.getD "medium" = "low" ∧ idx = 0 then 2 else 0) := by
      split_ifs <;> norm_num
    simp only [alignmentPenalty]
    linarith

/-- The overlong-task penalty is nonnegative. -/
theorem overlongPenalty_nonneg (l : List ScheduleBlock) : 0 ≤ overlongPenalty l := by
  apply List.sum_nonneg
  intro x hx
  simp only [List.mem_map] at hx
  obtain ⟨b, _, rfl⟩ := hx
  split_ifs <;> norm_num

/-- Time-efficiency sub-score bounds. -/
theorem scoreTimeEfficiency_bounds (plan : EvalPlan) :
    0 ≤ scoreTimeEfficiency plan ∧ scoreTimeEfficiency plan ≤ 25 := by
  simp only [scoreTimeEfficiency]
  split_ifs <;> refine ⟨?_, ?_⟩ <;>
    first
      | norm_num
      | exact le_max_left 0 _
      | (apply max_le <;> norm_num)

/-- Priority-alignment sub-score bounds. -/
theorem scorePriorityAlignment_bounds (plan : EvalPlan) (tasks : List Task) :
    0 ≤ scorePriorityAlignment plan tasks ∧ scorePriorityAlignment plan tasks ≤ 25 := by
  simp only [scorePriorityAlignment]
  refine ⟨le_max_left 0 _, ?_⟩
  apply max_le (by norm_num)
  have := alignmentPenalty_nonneg plan.scheduled_tasks 0
  linarith

/-- Feasibility sub-score bounds. -/
theorem scoreFeasibility_bounds (plan : EvalPlan) :
    0 ≤ scoreFeasibility plan ∧ scoreFeasibility plan ≤ 25 := by
  simp only [scoreFeasibility]
  refine ⟨le_max_left 0 _, ?_⟩
  apply max_le (by norm_num)
  have h1 := overlongPenalty_nonneg plan.scheduled_tasks
  have h2 : (0 : ℚ) ≤
      (if totalDuration plan.scheduled_tasks > 540 then (10 : ℚ)
       else if totalDuration plan.scheduled_tasks > 480 then 5 else 0) := by
    split_ifs <;> norm_num
  linarith

/-- Work-life-balance sub-score bounds. -/
theorem scoreWorkLifeBalance_bounds (plan : EvalPlan) (prefs : Option EvalPrefs) :
    0 ≤ scoreWorkLifeBalance plan prefs ∧ scoreWorkLifeBalance plan prefs ≤ 25 := by
  simp only [scoreWorkLifeBalance]
  refine ⟨le_max_left 0 _, ?_⟩
  apply max_le (by norm_num)
  split_ifs <;> norm_num

/-- C7: for every plan dict, task list and preference dict, each of the four
evaluation sub-scores lies in [0, 25], the total score (their sum) lies in
[0, 100], and the grade is the fixed pure function of the total score
(A at ≥ 90, B at ≥ 80, C at ≥ 70, D at ≥ 60, else F). -/
theorem c7_evaluation_bounds (plan : EvalPlan) (tasks : List Task)
    (prefs : Option EvalPrefs) :
    (0 ≤ (evaluatePlan plan tasks prefs).time_efficiency ∧
      (evaluatePlan plan tasks prefs).time_efficiency ≤ 25) ∧
    (0 ≤ (evaluatePlan plan tasks prefs).priority_alignment ∧
      (evaluatePlan plan tasks prefs).priority_alignment ≤ 25) ∧
    (0 ≤ (evaluatePlan plan tasks prefs).feasibility ∧
      (evaluatePlan plan tasks prefs).feasibility ≤ 25) ∧
    (0 ≤ (evaluatePlan plan tasks prefs).work_life_balance ∧
      (evaluatePlan plan tasks prefs).work_life_balance ≤ 25) ∧
    (evaluatePlan plan tasks prefs).total_score =
      (evaluatePlan plan tasks prefs).time_efficiency +
        (evaluatePlan plan tasks prefs).priority_alignment +
        (evaluatePlan plan tasks prefs).feasibility +
        (evaluatePlan plan tasks prefs).work_life_balance ∧
    (0 ≤ (evaluatePlan plan tasks prefs).total_score ∧
      (evaluatePlan plan tasks prefs).total_score ≤ 100) ∧
    (evaluatePlan plan tasks prefs).grade =
      (if (evaluatePlan plan tasks prefs).total_score ≥ 90 then "A"
       else if (evaluatePlan plan tasks prefs).total_score ≥ 80 then "B"
       else if (evaluatePlan plan tasks prefs).total_score ≥ 70 then "C"
       else if (evaluatePlan plan tasks prefs).total_score ≥ 60 then "D"
       else "F") := by
  obtain ⟨h1, h2⟩ := scoreTimeEfficiency_bounds plan
  obtain ⟨h3, h4⟩ := scorePriorityAlignment_bounds plan tasks
  obtain ⟨h5, h6⟩ := scoreFeasibility_bounds plan
  obtain ⟨h7, h8⟩ := scoreWorkLifeBalance_bounds plan prefs
  refine ⟨⟨h1, h2⟩, ⟨h3, h4⟩, ⟨h5, h6⟩, ⟨h7, h8⟩, rfl, ⟨?_, ?_⟩, rfl⟩
  · show (0 : ℚ) ≤ scoreTimeEfficiency plan + scorePriorityAlignment plan tasks +
      scoreFeasibility plan + scoreWorkLifeBalance plan prefs
    linarith
  · show scoreTimeEfficiency plan + scorePriorityAlignment plan tasks +
      scoreFeasibility plan + scoreWorkLifeBalance plan prefs ≤ 100
    linarith

end Productivity
